import Mathlib

/-!
Shallow embedding of the HSuite DEX provider client.

Sources embedded here: the programmatic swap module (src/unnamed/part_002)
and the provider demo (src/index.js). They share the SmartNodeSocket
class, the static Smart Node catalog, the random endpoint selection line
and the smartNodeSocket authentication handshake; part_002 additionally
contains the two websocket request correlators swapTransactionRequest and
swapTransactionExecute.

The event driven JavaScript is modelled as explicit state machines: the
synchronous body of each function builds an initial state, and each
inbound socket event or timer expiry is one step of a fold over a trace.
JavaScript promises are modelled with first write wins settlement, which
is exactly the semantics of calling resolve or reject more than once.
-/

namespace DexProvider

/-- Payload values carried in the payload field of a wire response. The
source treats the payload as opaque bytes; an absent or falsy payload is
modelled as none at the use site. -/
inductive JVal where
  | jnull
  | jnum (n : Nat)
  | jstr (s : String)
deriving DecidableEq

/-- Shallow model of the argument a response handler receives. The
constructor primitive stands for every value that fails the object check
of the handlers (the source tests !response or typeof response being
different from object, which also catches null). For objects we keep
exactly the fields the handlers read: status, payload, error, message,
errorCode and code; an absent or falsy field is none. -/
inductive RespVal where
  | primitive
  | obj (status : Option String) (payload : Option JVal)
      (errorField : Option String) (msgField : Option String)
      (errorCodeField : Option String) (codeField : Option String)
deriving DecidableEq

/-- Model of the JS Error objects the module constructs: the message, the
optional code property, the optional reason property set by the
disconnect handlers, and the optional response property attached on the
server rejection branch. -/
structure JsError where
  message : String
  code : Option String := none
  reason : Option String := none
  response : Option RespVal := none
deriving DecidableEq

/-- Settlement value of a promise: resolved with a value or rejected with
an error. -/
inductive Outcome (α : Type) where
  | resolved (v : α)
  | rejected (e : JsError)
deriving DecidableEq

/-- The responseHandler of swapTransactionRequest (part_002 lines
611 to 644) as a pure classification of the received response. A falsy
or non object response is rejected as an invalid format; a success
status without payload is rejected as missing payload; a success status
with payload resolves with the payload; any other status rejects with
message error or message fields (first truthy) and code errorCode or
code fields (first truthy), with the source defaults. -/
def classifyRequest : RespVal → Outcome JVal
  | .primitive => .rejected { message := "Invalid response format received from server" }
  | .obj status payload errorField msgField errorCodeField codeField =>
    if status = some "success" then
      match payload with
      | none => .rejected { message := "Server response missing transaction payload" }
      | some p => .resolved p
    else
      .rejected {
        message := errorField.getD (msgField.getD "Unknown error occurred during swap request"),
        code := some (errorCodeField.getD (codeField.getD "SWAP_REQUEST_ERROR")),
        response := some (.obj status payload errorField msgField errorCodeField codeField) }

/-- The responseHandler of swapTransactionExecute (part_002 lines
754 to 782). The success branch resolves with the whole response object
and performs no payload check; the other branches mirror the request
handler with the execution strings. -/
def classifyExecute : RespVal → Outcome RespVal
  | .primitive => .rejected { message := "Invalid response format received from server" }
  | .obj status payload errorField msgField errorCodeField codeField =>
    if status = some "success" then
      .resolved (.obj status payload errorField msgField errorCodeField codeField)
    else
      .rejected {
        message := errorField.getD (msgField.getD "Unknown error occurred during swap execution"),
        code := some (errorCodeField.getD (codeField.getD "SWAP_EXECUTION_ERROR")),
        response := some (.obj status payload errorField msgField errorCodeField codeField) }

/-- The operation specific strings used by the two correlators. -/
structure OpText where
  sockErrText : String
  discText : String
  timeoutMsg : String
deriving DecidableEq

def requestText : OpText :=
  { sockErrText := "Socket error during swap request: ",
    discText := "Socket disconnected during swap request: ",
    timeoutMsg := "Swap transaction request timed out after 30 seconds" }

def executeText : OpText :=
  { sockErrText := "Socket error during swap execution: ",
    discText := "Socket disconnected during swap execution: ",
    timeoutMsg := "Swap transaction execution timed out after 30 seconds" }

/-- The duration passed to setTimeout by swapTransactionRequest, in
milliseconds (part_002 line 608). -/
def requestTimeoutMs : Nat := 30000

/-- The duration passed to setTimeout by swapTransactionExecute, in
milliseconds (part_002 line 751). -/
def executeTimeoutMs : Nat := 30000

/-- Per call state of one correlator invocation: the hasResolved guard
flag, whether the setTimeout timer is still armed, whether each of the
three listeners registered by this call is still attached (response,
error, disconnect), and the settlement of the returned promise. -/
structure CallState (α : Type) where
  hasResolved : Bool
  timerActive : Bool
  respOn : Bool
  errOn : Bool
  discOn : Bool
  settled : Option (Outcome α)
deriving DecidableEq

variable {α : Type}

/-- Settling a JS promise: only the first resolve or reject takes
effect, later calls are ignored. -/
def settleAttempt (s : CallState α) (o : Outcome α) : CallState α :=
  match s.settled with
  | some _ => s
  | none => { s with settled := some o }

/-- The wrapped resolve and reject of the source: run cleanup (the three
socket.off calls) and then settle the promise. The cleanup function of
the source removes the three listeners and nothing else; in particular
it does not clear the timer. -/
def wrappedSettle (s : CallState α) (o : Outcome α) : CallState α :=
  settleAttempt { s with respOn := false, errOn := false, discOn := false } o

/-- Events a pending correlator call can observe: a response on its
operation event name, a socket error, a disconnect, the expiry of its
own timer, and any unrelated socket traffic. -/
inductive Ev where
  | response (r : RespVal)
  | sockError (m : String)
  | disconnect (reason : String)
  | timerFire
  | other
deriving DecidableEq

/-- One event step of a correlator call. A handler only runs while its
listener is attached; each handler first checks hasResolved, then sets
it, clears the timer and settles through the wrapped reject or resolve.
The timer callback checks hasResolved and rejects through the reject
variable, which the source reassigned to the wrapped version before the
executor returned, so the timer path also detaches the listeners. -/
def step (classify : RespVal → Outcome α) (txt : OpText) (s : CallState α) : Ev → CallState α
  | .response r =>
    if s.respOn && !s.hasResolved then
      wrappedSettle { s with hasResolved := true, timerActive := false } (classify r)
    else s
  | .sockError m =>
    if s.errOn && !s.hasResolved then
      wrappedSettle { s with hasResolved := true, timerActive := false }
        (.rejected { message := txt.sockErrText ++ m, code := some "SOCKET_ERROR" })
    else s
  | .disconnect reason =>
    if s.discOn && !s.hasResolved then
      wrappedSettle { s with hasResolved := true, timerActive := false }
        (.rejected { message := txt.discText ++ reason, code := some "SOCKET_DISCONNECT",
                     reason := some reason })
    else s
  | .timerFire =>
    if s.timerActive then
      if s.hasResolved then { s with timerActive := false }
      else
        wrappedSettle { s with timerActive := false, hasResolved := true }
          (.rejected { message := txt.timeoutMsg })
    else s
  | .other => s

/-- Processing a trace of events, in order. -/
def runEv (classify : RespVal → Outcome α) (txt : OpText) (s : CallState α)
    (tr : List Ev) : CallState α :=
  tr.foldl (step classify txt) s

/-- The lifecycle states of a Connection named by the specification. The
source keeps no such field: the only connection level datum the
correlators consult is whether the global socketConnection variable has
been assigned at all. -/
inductive ConnState where
  | idle | connecting | connected | authenticating | authenticated | closed
deriving DecidableEq

/-- A connection as seen by the correlators, carrying the specification
level lifecycle state so that claims about it can be stated. -/
structure Conn where
  state : ConnState
deriving DecidableEq

/-- Frames the correlators emit on the gateway socket. The request frame
also carries the swap object, which is opaque here. -/
inductive WireMsg where
  | swapPoolRequest (senderId : String)
  | swapPoolExecute
deriving DecidableEq

/-- Listener registry and outbound frame log of the gateway socket, as
far as one operation name is concerned: how many handlers are attached
for the response event, the error event and the disconnect event, and
which frames have been emitted. -/
structure SocketSide where
  respCount : Nat
  errCount : Nat
  discCount : Nat
  emitted : List WireMsg
deriving DecidableEq

/-- A fresh socket with no listeners and no emitted frames. -/
def sock0 : SocketSide := ⟨0, 0, 0, []⟩

/-- The call state every correlator is in right after a successful
synchronous start: guard down, timer armed, three listeners attached,
promise pending. -/
def pendingCall : CallState α :=
  { hasResolved := false, timerActive := true, respOn := true, errOn := true,
    discOn := true, settled := none }

/-- The synchronous body of swapTransactionRequest (part_002 lines 594
to 730). g is the global socketConnection: when it is none, reading its
socket property throws and the catch branch sets hasResolved, runs
clearTimeout on the not yet created timer and rejects with
INITIALIZATION_ERROR through the original reject, before any listener is
attached or anything is emitted. senderId is none when the argument
fails the senderId validation (falsy or not a string); sw is false when
the swap argument fails its validation. With a connection present the
timer is started and the three listeners are registered, resolve and
reject are rewrapped with cleanup, and only then do the validations run:
a validation rejection therefore detaches the listeners but neither sets
hasResolved nor clears the timer. Nothing about the connection other
than its presence is inspected. -/
def requestStart (g : Option Conn) (senderId : Option String) (sw : Bool)
    (sock : SocketSide) : CallState JVal × SocketSide :=
  match g with
  | none =>
    ({ hasResolved := true, timerActive := false, respOn := false, errOn := false,
       discOn := false,
       settled := some (.rejected
         { message := "Failed to initiate swap request: Cannot read properties of null (reading socket)",
           code := some "INITIALIZATION_ERROR" }) }, sock)
  | some _ =>
    let s1 : SocketSide :=
      { sock with
        respCount := sock.respCount + 1, errCount := sock.errCount + 1,
        discCount := sock.discCount + 1 }
    match senderId with
    | none =>
      (wrappedSettle pendingCall
        (.rejected { message := "Invalid senderId provided - must be a valid account ID string" }),
       s1)
    | some sid =>
      if sw then
        (pendingCall, { s1 with emitted := s1.emitted ++ [WireMsg.swapPoolRequest sid] })
      else
        (wrappedSettle pendingCall (.rejected { message := "Invalid swap object provided" }), s1)

/-- The synchronous body of swapTransactionExecute (part_002 lines 737
to 862), analogous to requestStart; txv is false when the signed
transaction argument fails its validation (falsy or without a toBytes
function). -/
def executeStart (g : Option Conn) (txv : Bool) (sock : SocketSide) :
    CallState RespVal × SocketSide :=
  match g with
  | none =>
    ({ hasResolved := true, timerActive := false, respOn := false, errOn := false,
       discOn := false,
       settled := some (.rejected
         { message := "Failed to initiate swap execution: Cannot read properties of null (reading socket)",
           code := some "INITIALIZATION_ERROR" }) }, sock)
  | some _ =>
    let s1 : SocketSide :=
      { sock with
        respCount := sock.respCount + 1, errCount := sock.errCount + 1,
        discCount := sock.discCount + 1 }
    if txv then
      (pendingCall, { s1 with emitted := s1.emitted ++ [WireMsg.swapPoolExecute] })
    else
      (wrappedSettle pendingCall (.rejected { message := "Invalid signed transaction provided" }), s1)

/-! Authentication handshake of smartNodeSocket (part_002 lines 256 to
360, index.js lines 137 to 203). -/

/-- The canonical payload the client builds on a challenge: the signature
bytes sent by the node and the original challenge payload. -/
structure SignedPayload where
  serverSignature : List Nat
  originalPayload : String
deriving DecidableEq

/-- The payload of the authenticate frame the client emits back. -/
structure AuthEmitMsg where
  signedPayload : SignedPayload
  userSignature : List Nat
  walletId : String
deriving DecidableEq

/-- State of one smartNodeSocket call: the settlement of the promise it
returns (resolved with the success message; the socket object of the
resolution is elided) and the authenticate frames emitted so far. -/
structure HsState where
  settled : Option (Outcome String)
  emissions : List AuthEmitMsg
deriving DecidableEq

/-- Inbound events the smartNodeSocket handlers listen for: connect,
disconnect, errors, the authenticate verdict carrying the
isValidSignature flag, and the authentication challenge carrying the
payload and the node signature bytes. The source installs no timer of
any kind in this function, so there is no expiry event. -/
inductive HsEv where
  | connectEv
  | disconnectEv
  | errorsEv
  | verdict (isValidSignature : Bool)
  | challenge (payload : String) (signature : List Nat)
deriving DecidableEq

/-- First write wins settlement of the smartNodeSocket promise. -/
def settleHs (s : HsState) (o : Outcome String) : HsState :=
  match s.settled with
  | some _ => s
  | none => { s with settled := some o }

/-- The message the promise resolves with on a valid verdict. -/
def authSuccessMsg (walletId nodeOperator : String) : String :=
  "account " ++ walletId ++ " authenticated to node " ++ nodeOperator ++ "."

/-- The error the promise rejects with on an invalid verdict; it names
the authenticating identity and the node operator. -/
def authFailErr (walletId nodeOperator : String) : JsError :=
  { message := "Authentication failed: Invalid signature for account " ++ walletId
      ++ " on node " ++ nodeOperator }

/-- One inbound event of the smartNodeSocket handlers. stringify stands
for JSON.stringify restricted to the payload record, sign for the sign
method of the private key decoded from the operator configuration. The
connect, disconnect and errors handlers only log. The verdict handler
resolves or rejects the promise according to the flag. The challenge
handler builds the canonical payload, signs its serialization and emits
exactly one authenticate frame, without touching the promise. -/
def hsStep (stringify : SignedPayload → List Nat) (sign : List Nat → List Nat)
    (walletId nodeOperator : String) (s : HsState) : HsEv → HsState
  | .connectEv => s
  | .disconnectEv => s
  | .errorsEv => s
  | .verdict true => settleHs s (.resolved (authSuccessMsg walletId nodeOperator))
  | .verdict false => settleHs s (.rejected (authFailErr walletId nodeOperator))
  | .challenge payload signature =>
    let sp : SignedPayload := { serverSignature := signature, originalPayload := payload }
    { s with
      emissions := s.emissions
        ++ [{ signedPayload := sp, userSignature := sign (stringify sp), walletId := walletId }] }

/-- Processing a trace of handshake events, in order. -/
def hsRun (stringify : SignedPayload → List Nat) (sign : List Nat → List Nat)
    (walletId nodeOperator : String) (s : HsState) (tr : List HsEv) : HsState :=
  tr.foldl (hsStep stringify sign walletId nodeOperator) s

/-- The canonical authenticate frame a single challenge event gives rise
to, stated independently of hsStep: the signedPayload is the record of
the node signature and the original challenge payload, the userSignature
is the signature over its serialization, and the walletId is the caller
identity. Events other than a challenge emit nothing. -/
def challengeEmit (stringify : SignedPayload → List Nat) (sign : List Nat → List Nat)
    (walletId : String) : HsEv → Option AuthEmitMsg
  | .challenge payload signature =>
    some { signedPayload := { serverSignature := signature, originalPayload := payload },
           userSignature := sign (stringify { serverSignature := signature,
                                              originalPayload := payload }),
           walletId := walletId }
  | _ => none

/-- Trivial stand in serializer, used only to instantiate theorems on
concrete inputs. -/
def stubStringify : SignedPayload → List Nat := fun _ => []

/-- Trivial stand in signer, used only to instantiate theorems on
concrete inputs. -/
def stubSign : List Nat → List Nat := fun l => l

/-! The static Smart Node catalog and the random endpoint selection
(part_002 lines 124 to 191 and 260, index.js lines 54 to 119 and 141). -/

/-- One Smart Node descriptor of the catalog. -/
structure NodeDesc where
  operator : String
  publicKey : String
  url : String
deriving DecidableEq

/-- The mainnet catalog, transcribed from the source. -/
def mainnetNodes : List NodeDesc := [
  ⟨"0.0.1786597",
   "302a300506032b65700321003f54816030c29221e4f228c76415cba0db1ab4c49827d9dbf580abc2f2b29c24",
   "https://mainnet-sn1.hsuite.network"⟩,
  ⟨"0.0.1786598",
   "302a300506032b6570032100233b043e21d5e148f48e2c2da6607a1f5e6fc381781bd0561967743a8291785e",
   "https://mainnet-sn2.hsuite.network"⟩,
  ⟨"0.0.1786599",
   "302a300506032b6570032100c236c88b0aadccf86cc09c57734401409e301d45018ab179f8463801f486c89a",
   "https://mainnet-sn3.hsuite.network"⟩,
  ⟨"0.0.1786344",
   "302a300506032b65700321004e3c29113c911ce6dba13669fda53ed1ab3d89547e23c0b7ab2275fd5dc05766",
   "https://mainnet-sn4.hsuite.network"⟩,
  ⟨"0.0.1786344",
   "302a300506032b65700321004e3c29113c911ce6dba13669fda53ed1ab3d89547e23c0b7ab2275fd5dc05766",
   "https://mainnet-sn5.hsuite.network"⟩,
  ⟨"0.0.1786345",
   "302a300506032b6570032100077bfba9f0fb180026f0de51d4e1083d616eff34a8fe62a1c0e34dd975b7f8cf",
   "https://mainnet-sn6.hsuite.network"⟩,
  ⟨"0.0.1786347",
   "302a300506032b6570032100ff792317f5a24278f1a2dddfc9a23670e158ccb9ecd42cdd0ab36e5ad8bc40a6",
   "https://mainnet-sn7.hsuite.network"⟩,
  ⟨"0.0.1786365",
   "302a300506032b6570032100485e23e18834571e466f96de9f96f228a1f5da860b319f0f0cb2890f938f298d",
   "https://mainnet-sn8.hsuite.network"⟩]

/-- The testnet catalog, transcribed from the source. -/
def testnetNodes : List NodeDesc := [
  ⟨"0.0.467726",
   "302a300506032b6570032100ae51a8b5d22e40d68fec62e20488132182f304cddbf5cd494d62cb18a06b71c1",
   "https://testnet-sn1.hsuite.network"⟩,
  ⟨"0.0.467732",
   "302a300506032b657003210014e45f62427a777c8a5c168115793969c5fa04979b6a40a34c3bff7d20a3b745",
   "https://testnet-sn2.hsuite.network"⟩,
  ⟨"0.0.467734",
   "302a300506032b65700321002caf57f6153afb61ed70545516886b1621aa93dd22ae79412f5af0cbfcd2b5ab",
   "https://testnet-sn3.hsuite.network"⟩,
  ⟨"0.0.467737",
   "302a300506032b6570032100452e3d988c2f0e40b6194c7543ec880daaefa29b6c48e590b367bbe22de429d3",
   "https://testnet-sn4.hsuite.network"⟩]

/-- The nodes object of the source: property lookup by network name. -/
def nodes (network : String) : Option (List NodeDesc) :=
  if network = "mainnet" then some mainnetNodes
  else if network = "testnet" then some testnetNodes
  else none

/-- JS array indexing: a negative or out of range index reads undefined,
modelled as none. -/
def listGetJs (l : List α) (i : Int) : Option α :=
  if i < 0 then none else l.get? i.toNat

/-- The index computed by the selection line:
Math.floor(Math.random() * nodes[network].length), with r standing for
the Math.random() draw. -/
def selIndex (r : ℚ) (len : Nat) : Int := Rat.floor (r * (len : ℚ))

/-- The TypeError raised when nodes[network] is undefined and its length
property is read; it carries no structured code. -/
def catalogMissingErr : JsError :=
  { message := "TypeError: Cannot read properties of undefined (reading length)" }

/-- The TypeError raised when the indexed node is undefined and its url
property is read; it carries no structured code. -/
def nodeUndefinedErr : JsError :=
  { message := "TypeError: Cannot read properties of undefined (reading url)" }

/-- Result of the endpoint selection: a node, or the raw error the
enclosing catch rejects the promise with. -/
inductive SelResult where
  | ok (nd : NodeDesc)
  | error (e : JsError)
deriving DecidableEq

/-- The endpoint selection of smartNodeSocket and smartNodeClient:
nodes[network][Math.floor(Math.random() * nodes[network].length)]. An
unrecognized network makes the length read throw; an out of range index
(only possible when the catalog list is empty) yields undefined and the
first later property read of the node throws. Both propagate to the
enclosing catch, which rejects the promise with the raw TypeError. -/
def selectNode (catalog : String → Option (List NodeDesc)) (network : String) (r : ℚ) :
    SelResult :=
  match catalog network with
  | none => .error catalogMissingErr
  | some l =>
    match listGetJs l (selIndex r l.length) with
    | some nd => .ok nd
    | none => .error nodeUndefinedErr

/-! The SmartNodeSocket class (part_002 lines 44 to 108, index.js lines
12 to 51). -/

/-- The socket.io client object produced by io(url/path, opts): we keep
the namespace url it was created with and the wallet of the query. -/
structure SocketObj where
  nsUrl : String
  wallet : String
deriving DecidableEq

/-- URL scheme conversion performed by SmartNodeSocket.init. -/
def wsUrl (u : String) : String :=
  (u.replace "https://" "wss://").replace "http://" "ws://"

/-- The SmartNodeSocket instance state: node configuration, wallet, and
the lazily created socket. -/
structure SNS where
  node : NodeDesc
  wallet : String
  socket : Option SocketObj
deriving DecidableEq

/-- SmartNodeSocket.init: converts the node url to the websocket scheme,
creates the socket for the given path and stores it on the instance. -/
def SNS.init (s : SNS) (path : String) : SocketObj × SNS :=
  let sk : SocketObj := { nsUrl := wsUrl s.node.url ++ "/" ++ path, wallet := s.wallet }
  (sk, { s with socket := some sk })

/-- SmartNodeSocket.getSocket: returns the stored socket when one
exists, otherwise initializes one for the given path. -/
def SNS.getSocket (s : SNS) (path : String) : SocketObj × SNS :=
  match s.socket with
  | none => s.init path
  | some sk => (sk, s)

/-- The three listeners registered by a correlator call are all
detached. -/
abbrev listenersOff (s : CallState α) : Prop :=
  s.respOn = false ∧ s.errOn = false ∧ s.discOn = false

/-- A connection in the authenticated lifecycle state, used to
instantiate theorems on concrete inputs. -/
def connA : Conn := ⟨ConnState.authenticated⟩

/-- A well formed success response carrying a payload, used to
instantiate theorems on concrete inputs. -/
def respOk : RespVal := .obj (some "success") (some (.jnum 7)) none none none none

/-- A fresh SmartNodeSocket instance for the first mainnet node, used to
instantiate theorems on concrete inputs. -/
def sns0 : SNS :=
  ⟨⟨"0.0.1786597",
    "302a300506032b65700321003f54816030c29221e4f228c76415cba0db1ab4c49827d9dbf580abc2f2b29c24",
    "https://mainnet-sn1.hsuite.network"⟩, "0.0.9", none⟩

/-- Recognizing a structured error of the taxonomy of the specification
by the kind stored in its code property; the structured errors the
source does construct all use this property. -/
def specHasKind (e : JsError) (kind : String) : Bool := e.code = some kind

/-- Modelled from the spec: the outcome taxonomy the response claim uses
for a response to an in flight operation. -/
inductive SpecOutcome where
  | success (p : JVal)
  | serverRejected (code : String) (message : String)
  | protocolViolation
deriving DecidableEq

/-- Modelled from the spec: the claimed classification of a response
event. A response that is not a structured object, or a success response
missing the required payload, is a protocol violation; a success
response resolves with its payload; a failure response is a server
rejection carrying code and message derived from the response error
fields (with the source defaults for absent fields). -/
def specResponseOutcome : RespVal → SpecOutcome
  | .primitive => .protocolViolation
  | .obj status payload errorField msgField errorCodeField codeField =>
    if status = some "success" then
      match payload with
      | none => .protocolViolation
      | some p => .success p
    else
      .serverRejected (errorCodeField.getD (codeField.getD "SWAP_REQUEST_ERROR"))
        (errorField.getD (msgField.getD "Unknown error occurred during swap request"))

/-- View of a concrete request outcome through the claimed taxonomy:
rejections carrying a code property are server rejections, rejections
without one are the protocol violation classification. -/
def specView : Outcome JVal → SpecOutcome
  | .resolved v => .success v
  | .rejected e =>
    match e.code with
    | some c => .serverRejected c e.message
    | none => .protocolViolation

/-! Generic lemmas about the correlator state machine. -/

lemma settleAttempt_settled_of_isSome (s : CallState α) (o : Outcome α)
    (h : s.settled.isSome) : (settleAttempt s o).settled = s.settled := by
  cases hs : s.settled with
  | none => rw [hs] at h; simp at h
  | some x => simp [settleAttempt, hs]

lemma wrappedSettle_settled_of_isSome (s : CallState α) (o : Outcome α)
    (h : s.settled.isSome) : (wrappedSettle s o).settled = s.settled := by
  unfold wrappedSettle
  exact settleAttempt_settled_of_isSome _ o h

lemma wrappedSettle_listenersOff (s : CallState α) (o : Outcome α) :
    listenersOff (wrappedSettle s o) := by
  cases hs : s.settled <;> simp [wrappedSettle, settleAttempt, hs]

lemma wrappedSettle_timerActive (s : CallState α) (o : Outcome α) :
    (wrappedSettle s o).timerActive = s.timerActive := by
  cases hs : s.settled <;> simp [wrappedSettle, settleAttempt, hs]

lemma step_settled_of_isSome (classify : RespVal → Outcome α) (txt : OpText)
    (s : CallState α) (e : Ev) (h : s.settled.isSome) :
    (step classify txt s e).settled = s.settled := by
  cases e with
  | response r =>
    simp only [step]; split
    · exact wrappedSettle_settled_of_isSome _ _ h
    · rfl
  | sockError m =>
    simp only [step]; split
    · exact wrappedSettle_settled_of_isSome _ _ h
    · rfl
  | disconnect reason =>
    simp only [step]; split
    · exact wrappedSettle_settled_of_isSome _ _ h
    · rfl
  | timerFire =>
    simp only [step]; split
    · split
      · rfl
      · exact wrappedSettle_settled_of_isSome _ _ h
    · rfl
  | other => rfl

lemma step_invL (classify : RespVal → Outcome α) (txt : OpText)
    (s : CallState α) (e : Ev) (h : s.settled.isSome → listenersOff s) :
    (step classify txt s e).settled.isSome → listenersOff (step classify txt s e) := by
  cases e with
  | response r =>
    simp only [step]; split
    · intro _; exact wrappedSettle_listenersOff _ _
    · exact h
  | sockError m =>
    simp only [step]; split
    · intro _; exact wrappedSettle_listenersOff _ _
    · exact h
  | disconnect reason =>
    simp only [step]; split
    · intro _; exact wrappedSettle_listenersOff _ _
    · exact h
  | timerFire =>
    simp only [step]; split
    · split
      · intro hs; exact h hs
      · intro _; exact wrappedSettle_listenersOff _ _
    · exact h
  | other => exact h

lemma step_invT (classify : RespVal → Outcome α) (txt : OpText)
    (s : CallState α) (e : Ev) (h : s.settled.isSome → s.timerActive = false) :
    (step classify txt s e).settled.isSome → (step classify txt s e).timerActive = false := by
  cases e with
  | response r =>
    simp only [step]; split
    · intro _; rw [wrappedSettle_timerActive]
    · exact h
  | sockError m =>
    simp only [step]; split
    · intro _; rw [wrappedSettle_timerActive]
    · exact h
  | disconnect reason =>
    simp only [step]; split
    · intro _; rw [wrappedSettle_timerActive]
    · exact h
  | timerFire =>
    simp only [step]; split
    · split
      · intro _; rfl
      · intro _; rw [wrappedSettle_timerActive]
    · exact h
  | other => exact h

lemma runEv_cons (classify : RespVal → Outcome α) (txt : OpText)
    (s : CallState α) (e : Ev) (tr : List Ev) :
    runEv classify txt s (e :: tr) = runEv classify txt (step classify txt s e) tr := rfl

lemma runEv_append (classify : RespVal → Outcome α) (txt : OpText)
    (s : CallState α) (l1 l2 : List Ev) :
    runEv classify txt s (l1 ++ l2) = runEv classify txt (runEv classify txt s l1) l2 := by
  simp [runEv, List.foldl_append]

lemma runEv_settled_of_isSome (classify : RespVal → Outcome α) (txt : OpText)
    (s : CallState α) (tr : List Ev) (h : s.settled.isSome) :
    (runEv classify txt s tr).settled = s.settled := by
  induction tr generalizing s with
  | nil => rfl
  | cons e tr ih =>
    rw [runEv_cons]
    have h1 := step_settled_of_isSome classify txt s e h
    rw [ih _ (by rw [h1]; exact h), h1]

lemma runEv_invL (classify : RespVal → Outcome α) (txt : OpText)
    (s : CallState α) (tr : List Ev) (h : s.settled.isSome → listenersOff s) :
    (runEv classify txt s tr).settled.isSome → listenersOff (runEv classify txt s tr) := by
  induction tr generalizing s with
  | nil => exact h
  | cons e tr ih =>
    rw [runEv_cons]
    exact ih _ (step_invL classify txt s e h)

lemma runEv_invT (classify : RespVal → Outcome α) (txt : OpText)
    (s : CallState α) (tr : List Ev) (h : s.settled.isSome → s.timerActive = false) :
    (runEv classify txt s tr).settled.isSome → (runEv classify txt s tr).timerActive = false := by
  induction tr generalizing s with
  | nil => exact h
  | cons e tr ih =>
    rw [runEv_cons]
    exact ih _ (step_invT classify txt s e h)

lemma runEv_others (classify : RespVal → Outcome α) (txt : OpText)
    (s : CallState α) (t : List Ev) :
    (∀ e ∈ t, e = Ev.other) → runEv classify txt s t = s := by
  induction t with
  | nil => intro _; rfl
  | cons e t ih =>
    intro h
    have he : e = Ev.other := h e (List.mem_cons_self e t)
    subst he
    rw [runEv_cons]
    exact ih (fun x hx => h x (List.mem_cons_of_mem _ hx))

lemma pending_timeout (classify : RespVal → Outcome α) (txt : OpText) (t1 t2 : List Ev)
    (h : ∀ e ∈ t1, e = Ev.other) :
    (runEv classify txt pendingCall (t1 ++ Ev.timerFire :: t2)).settled
      = some (.rejected { message := txt.timeoutMsg }) := by
  rw [runEv_append, runEv_others classify txt _ t1 h, runEv_cons]
  have h2 : (step classify txt (pendingCall : CallState α) Ev.timerFire).settled
      = some (.rejected { message := txt.timeoutMsg }) := rfl
  rw [runEv_settled_of_isSome _ _ _ _ (by rw [h2]; rfl), h2]

lemma settleHs_emissions (s : HsState) (o : Outcome String) :
    (settleHs s o).emissions = s.emissions := by
  cases hs : s.settled <;> simp [settleHs, hs]

lemma settleHs_settled_of_isSome (s : HsState) (o : Outcome String)
    (h : s.settled.isSome) : (settleHs s o).settled = s.settled := by
  cases hs : s.settled with
  | none => rw [hs] at h; simp at h
  | some x => simp [settleHs, hs]

lemma ratFloor_eq_floor (q : ℚ) : Rat.floor q = ⌊q⌋ := by
  rw [Rat.floor_def', Rat.floor_def]

lemma selIndex_zero (r : ℚ) : selIndex r 0 = 0 := by
  rw [selIndex, ratFloor_eq_floor]
  simp

/-! Claim theorems. -/

/-- Claim C1, amended. For both correlators and every trace of events in
every order: the promise settles at most once (its settlement value is
stable under any further event), and at any point where it is settled
the three listeners registered by the call are detached, on every exit
path including the input validation rejections. The deadline timer is
cleared at settlement on the runs that emitted a request (valid inputs);
on the input validation rejection path the timer stays armed, which the
counterexample records, and its later expiry cannot settle the promise
again. -/
theorem c1_settlement_cleanup :
    (∀ (g : Option Conn) (sid : Option String) (sw : Bool) (sock : SocketSide) (tr : List Ev),
      (runEv classifyRequest requestText (requestStart g sid sw sock).1 tr).settled.isSome →
      listenersOff (runEv classifyRequest requestText (requestStart g sid sw sock).1 tr))
    ∧ (∀ (g : Option Conn) (txv : Bool) (sock : SocketSide) (tr : List Ev),
      (runEv classifyExecute executeText (executeStart g txv sock).1 tr).settled.isSome →
      listenersOff (runEv classifyExecute executeText (executeStart g txv sock).1 tr))
    ∧ (∀ (g : Option Conn) (sid : Option String) (sw : Bool) (sock : SocketSide)
        (tr tr2 : List Ev),
      (runEv classifyRequest requestText (requestStart g sid sw sock).1 tr).settled.isSome →
      (runEv classifyRequest requestText
          (runEv classifyRequest requestText (requestStart g sid sw sock).1 tr) tr2).settled
        = (runEv classifyRequest requestText (requestStart g sid sw sock).1 tr).settled)
    ∧ (∀ (g : Option Conn) (txv : Bool) (sock : SocketSide) (tr tr2 : List Ev),
      (runEv classifyExecute executeText (executeStart g txv sock).1 tr).settled.isSome →
      (runEv classifyExecute executeText
          (runEv classifyExecute executeText (executeStart g txv sock).1 tr) tr2).settled
        = (runEv classifyExecute executeText (executeStart g txv sock).1 tr).settled)
    ∧ (∀ (c : Conn) (sid : String) (sock : SocketSide) (tr : List Ev),
      (runEv classifyRequest requestText
          (requestStart (some c) (some sid) true sock).1 tr).settled.isSome →
      (runEv classifyRequest requestText
          (requestStart (some c) (some sid) true sock).1 tr).timerActive = false)
    ∧ (∀ (c : Conn) (sock : SocketSide) (tr : List Ev),
      (runEv classifyExecute executeText (executeStart (some c) true sock).1 tr).settled.isSome →
      (runEv classifyExecute executeText
          (executeStart (some c) true sock).1 tr).timerActive = false) := by
  refine ⟨?_, ?_, ?_, ?_, ?_, ?_⟩
  · intro g sid sw sock tr
    apply runEv_invL
    intro hs
    cases g with
    | none => exact ⟨rfl, rfl, rfl⟩
    | some c =>
      cases sid with
      | none => exact wrappedSettle_listenersOff _ _
      | some s' =>
        cases sw with
        | false => exact wrappedSettle_listenersOff _ _
        | true =>
          have h0 : ((requestStart (some c) (some s') true sock).1).settled = none := rfl
          rw [h0] at hs
          simp at hs
  · intro g txv sock tr
    apply runEv_invL
    intro hs
    cases g with
    | none => exact ⟨rfl, rfl, rfl⟩
    | some c =>
      cases txv with
      | false => exact wrappedSettle_listenersOff _ _
      | true =>
        have h0 : ((executeStart (some c) true sock).1).settled = none := rfl
        rw [h0] at hs
        simp at hs
  · intro g sid sw sock tr tr2 h
    exact runEv_settled_of_isSome _ _ _ _ h
  · intro g txv sock tr tr2 h
    exact runEv_settled_of_isSome _ _ _ _ h
  · intro c sid sock tr
    apply runEv_invT
    intro hs
    have h0 : ((requestStart (some c) (some sid) true sock).1).settled = none := rfl
    rw [h0] at hs
    simp at hs
  · intro c sock tr
    apply runEv_invT
    intro hs
    have h0 : ((executeStart (some c) true sock).1).settled = none := rfl
    rw [h0] at hs
    simp at hs

/-- Witness for claim C1: a concrete run in which a matching response
settles the request operation; the listeners are detached, a later timer
expiry leaves the settlement unchanged, and the timer was cleared. -/
theorem c1_settlement_cleanup_witness :
    listenersOff (runEv classifyRequest requestText
      (requestStart (some connA) (some "0.0.9") true sock0).1 [Ev.response respOk])
    ∧ (runEv classifyRequest requestText
        (runEv classifyRequest requestText
          (requestStart (some connA) (some "0.0.9") true sock0).1 [Ev.response respOk])
        [Ev.timerFire]).settled
      = (runEv classifyRequest requestText
          (requestStart (some connA) (some "0.0.9") true sock0).1 [Ev.response respOk]).settled
    ∧ (runEv classifyRequest requestText
        (requestStart (some connA) (some "0.0.9") true sock0).1
        [Ev.response respOk]).timerActive = false :=
  ⟨c1_settlement_cleanup.1 (some connA) (some "0.0.9") true sock0 [Ev.response respOk]
     (by decide),
   c1_settlement_cleanup.2.2.1 (some connA) (some "0.0.9") true sock0 [Ev.response respOk]
     [Ev.timerFire] (by decide),
   c1_settlement_cleanup.2.2.2.2.1 connA "0.0.9" sock0 [Ev.response respOk] (by decide)⟩

/-- Claim C1 counterexample. On the input validation rejection path (a
rejected senderId) the promise is settled, yet the deadline timer is
still armed: the cleanup function of the source removes only the three
listeners and the validation branch neither sets hasResolved nor calls
clearTimeout, refuting the part of the claim that says the timer is
removed at the moment of settlement on every exit path including input
validation rejections. -/
theorem c1_counterexample :
    ((requestStart (some connA) none true sock0).1.settled).isSome = true
    ∧ (requestStart (some connA) none true sock0).1.timerActive = true := by
  decide

/-- Claim C2, amended. The correlated send performs no authentication
state check at all: when the global socket connection has never been
assigned it fails immediately with an INITIALIZATION_ERROR rejection,
with no listener registered and nothing emitted; when a connection
object exists the call behaves identically whatever lifecycle state the
connection is in. -/
theorem c2_no_auth_check :
    (∀ (sid : Option String) (sw : Bool) (sock : SocketSide),
      requestStart none sid sw sock =
        ({ hasResolved := true, timerActive := false, respOn := false, errOn := false,
           discOn := false,
           settled := some (.rejected
             { message := "Failed to initiate swap request: Cannot read properties of null (reading socket)",
               code := some "INITIALIZATION_ERROR" }) }, sock))
    ∧ (∀ (txv : Bool) (sock : SocketSide),
      executeStart none txv sock =
        ({ hasResolved := true, timerActive := false, respOn := false, errOn := false,
           discOn := false,
           settled := some (.rejected
             { message := "Failed to initiate swap execution: Cannot read properties of null (reading socket)",
               code := some "INITIALIZATION_ERROR" }) }, sock))
    ∧ (∀ (c c' : Conn) (sid : Option String) (sw : Bool) (sock : SocketSide),
      requestStart (some c) sid sw sock = requestStart (some c') sid sw sock)
    ∧ (∀ (c c' : Conn) (txv : Bool) (sock : SocketSide),
      executeStart (some c) txv sock = executeStart (some c') txv sock) :=
  ⟨fun _ _ _ => rfl, fun _ _ => rfl, fun _ _ _ _ _ => rfl, fun _ _ _ _ => rfl⟩

/-- Claim C2 counterexample. A connection object in the closed state
(present but not authenticated, as after a disconnect that followed a
successful handshake) does not make the send fail: the call registers
its listeners, emits the wire request and leaves the promise pending,
instead of failing immediately with a NotAuthenticated error before
registering listeners or emitting, as the claim requires. -/
theorem c2_counterexample :
    (requestStart (some ⟨ConnState.closed⟩) (some "0.0.9") true sock0).1.settled = none
    ∧ (requestStart (some ⟨ConnState.closed⟩) (some "0.0.9") true sock0).2.emitted
      = [WireMsg.swapPoolRequest "0.0.9"]
    ∧ (requestStart (some ⟨ConnState.closed⟩) (some "0.0.9") true sock0).2.respCount = 1 := by
  decide

/-- Claim C3, evaluated at the failing input. A second
swapTransactionRequest issued while the first is still outstanding is
not rejected with an OperationInFlight error: the source keeps no in
flight registry, so the second call attaches a second set of listeners,
emits a second swapPoolRequest frame and leaves both promises pending. -/
theorem c3_second_send_not_guarded :
    (requestStart (some connA) (some "0.0.9") true sock0).1.settled = none
    ∧ (requestStart (some connA) (some "0.0.9") true
        ((requestStart (some connA) (some "0.0.9") true sock0).2)).1.settled = none
    ∧ (requestStart (some connA) (some "0.0.9") true
        ((requestStart (some connA) (some "0.0.9") true sock0).2)).2.emitted
      = [WireMsg.swapPoolRequest "0.0.9", WireMsg.swapPoolRequest "0.0.9"]
    ∧ (requestStart (some connA) (some "0.0.9") true
        ((requestStart (some connA) (some "0.0.9") true sock0).2)).2.respCount = 2 := by
  decide

/-- Claim C4, amended. The request correlator classifies responses
exactly as the claim states: viewed through the claimed taxonomy (a
rejection carrying a code property is a server rejection, one without a
code is the protocol violation class), its handler agrees with the
classification written from the words of the claim on every response.
The execute correlator differs on success: it resolves with the entire
response object and imposes no payload requirement; its failure and non
object branches classify as claimed. -/
theorem c4_classification :
    (∀ r : RespVal, specView (classifyRequest r) = specResponseOutcome r)
    ∧ (∀ (st : Option String) (p : Option JVal) (e m ec c : Option String),
      st = some "success" →
      classifyExecute (.obj st p e m ec c) = .resolved (.obj st p e m ec c))
    ∧ (classifyExecute .primitive
        = .rejected { message := "Invalid response format received from server" })
    ∧ (∀ (st : Option String) (p : Option JVal) (e m ec c : Option String),
      st ≠ some "success" →
      classifyExecute (.obj st p e m ec c) =
        .rejected { message := e.getD (m.getD "Unknown error occurred during swap execution"),
                    code := some (ec.getD (c.getD "SWAP_EXECUTION_ERROR")),
                    response := some (.obj st p e m ec c) }) := by
  refine ⟨?_, ?_, rfl, ?_⟩
  · intro r
    cases r with
    | primitive => rfl
    | obj st p e m ec c =>
      by_cases hst : st = some "success"
      · cases p <;> simp [classifyRequest, specResponseOutcome, specView, hst]
      · simp [classifyRequest, specResponseOutcome, specView, hst]
  · intro st p e m ec c h
    simp [classifyExecute, h]
  · intro st p e m ec c h
    simp [classifyExecute, h]

/-- Witness for claim C4: concrete responses exercising the success and
failure branches of the execute classifier and the refinement of the
request classifier. -/
theorem c4_classification_witness :
    specView (classifyRequest respOk) = specResponseOutcome respOk
    ∧ classifyExecute (.obj (some "success") (some (.jnum 7)) none none none none)
      = .resolved (.obj (some "success") (some (.jnum 7)) none none none none)
    ∧ classifyExecute (.obj (some "failed") none none none none none)
      = .rejected { message := "Unknown error occurred during swap execution",
                    code := some "SWAP_EXECUTION_ERROR",
                    response := some (.obj (some "failed") none none none none none) } :=
  ⟨c4_classification.1 respOk,
   c4_classification.2.1 (some "success") (some (.jnum 7)) none none none none rfl,
   c4_classification.2.2.2 (some "failed") none none none none none (by decide)⟩

/-- Claim C4 counterexample. A success status response with no payload:
the claim classifies it as a protocol violation (a success response
missing the required payload) and in any case requires resolution with
the payload of the response, but the execute correlator resolves it with
the entire response object. -/
theorem c4_counterexample :
    classifyExecute (.obj (some "success") none none none none none)
      = .resolved (.obj (some "success") none none none none none)
    ∧ specResponseOutcome (.obj (some "success") none none none none none)
      = .protocolViolation :=
  ⟨rfl, rfl⟩

/-- Claim C5. For both correlators: if every event that fires before the
deadline expiry is unrelated traffic (no matching response, no transport
error, no disconnect), the operation settles with the timeout rejection,
and no later event changes the settlement; the deadline is the source
constant 30000 milliseconds, that is 30 seconds, started in the same
synchronous body that emits the request. -/
theorem c5_timeout :
    (∀ (c : Conn) (sid : String) (sock : SocketSide) (t1 t2 : List Ev),
      (∀ e ∈ t1, e = Ev.other) →
      (runEv classifyRequest requestText (requestStart (some c) (some sid) true sock).1
          (t1 ++ Ev.timerFire :: t2)).settled
        = some (.rejected { message := "Swap transaction request timed out after 30 seconds" }))
    ∧ (∀ (c : Conn) (sock : SocketSide) (t1 t2 : List Ev),
      (∀ e ∈ t1, e = Ev.other) →
      (runEv classifyExecute executeText (executeStart (some c) true sock).1
          (t1 ++ Ev.timerFire :: t2)).settled
        = some (.rejected { message := "Swap transaction execution timed out after 30 seconds" }))
    ∧ requestTimeoutMs = 30 * 1000 ∧ executeTimeoutMs = 30 * 1000 := by
  refine ⟨?_, ?_, rfl, rfl⟩
  · intro c sid sock t1 t2 h
    exact pending_timeout classifyRequest requestText t1 t2 h
  · intro c sock t1 t2 h
    exact pending_timeout classifyExecute executeText t1 t2 h

/-- Witness for claim C5: a concrete run with one unrelated event before
the deadline and a late response after it; the operation settles with
the timeout rejection. -/
theorem c5_timeout_witness :
    (runEv classifyRequest requestText (requestStart (some connA) (some "0.0.9") true sock0).1
        ([Ev.other] ++ Ev.timerFire :: [Ev.response respOk])).settled
      = some (.rejected { message := "Swap transaction request timed out after 30 seconds" }) :=
  c5_timeout.1 connA "0.0.9" sock0 [Ev.other] [Ev.response respOk] (by decide)

/-- Claim C6. Over any trace of handshake events, the frames emitted by
the smartNodeSocket handlers are exactly one authenticate frame per
authentication challenge, each carrying the canonical payload: the
signedPayload is the record of the node signature bytes and the original
challenge payload, the userSignature is the signature over its
serialization, and the walletId is the caller identity. -/
theorem c6_challenge_response
    (stringify : SignedPayload → List Nat) (sign : List Nat → List Nat)
    (walletId nodeOperator : String) (s : HsState) (tr : List HsEv) :
    (hsRun stringify sign walletId nodeOperator s tr).emissions
      = s.emissions ++ tr.filterMap (challengeEmit stringify sign walletId) := by
  induction tr generalizing s with
  | nil => simp [hsRun]
  | cons e tr ih =>
    have hc : hsRun stringify sign walletId nodeOperator s (e :: tr)
        = hsRun stringify sign walletId nodeOperator
            (hsStep stringify sign walletId nodeOperator s e) tr := rfl
    rw [hc, ih]
    cases e with
    | connectEv => simp [hsStep, challengeEmit]
    | disconnectEv => simp [hsStep, challengeEmit]
    | errorsEv => simp [hsStep, challengeEmit]
    | verdict b => cases b <;> simp [hsStep, challengeEmit, settleHs_emissions]
    | challenge p sig => simp [hsStep, challengeEmit]

/-- Claim C7, amended. A verdict with a true flag resolves the pending
authentication promise with the success message; a verdict with a false
flag rejects it with the AuthenticationFailed error, whose message names
the authenticating identity and the node operator; once settled, no
later event changes the settlement. The source installs no
authentication deadline, so absence of a verdict leaves the promise
pending forever, which the counterexample records. -/
theorem c7_verdict_settlement :
    (∀ (stringify : SignedPayload → List Nat) (sign : List Nat → List Nat)
        (walletId nodeOperator : String) (s : HsState),
      s.settled = none →
      (hsStep stringify sign walletId nodeOperator s (.verdict true)).settled
        = some (.resolved (authSuccessMsg walletId nodeOperator)))
    ∧ (∀ (stringify : SignedPayload → List Nat) (sign : List Nat → List Nat)
        (walletId nodeOperator : String) (s : HsState),
      s.settled = none →
      (hsStep stringify sign walletId nodeOperator s (.verdict false)).settled
        = some (.rejected (authFailErr walletId nodeOperator)))
    ∧ (∀ (stringify : SignedPayload → List Nat) (sign : List Nat → List Nat)
        (walletId nodeOperator : String) (s : HsState) (e : HsEv),
      s.settled.isSome →
      (hsStep stringify sign walletId nodeOperator s e).settled = s.settled)
    ∧ (∀ walletId nodeOperator : String,
      (authFailErr walletId nodeOperator).message
        = "Authentication failed: Invalid signature for account " ++ walletId
          ++ " on node " ++ nodeOperator) := by
  refine ⟨?_, ?_, ?_, fun _ _ => rfl⟩
  · intro stringify sign walletId nodeOperator s h
    simp [hsStep, settleHs, h]
  · intro stringify sign walletId nodeOperator s h
    simp [hsStep, settleHs, h]
  · intro stringify sign walletId nodeOperator s e h
    cases e with
    | connectEv => rfl
    | disconnectEv => rfl
    | errorsEv => rfl
    | verdict b => cases b <;> exact settleHs_settled_of_isSome _ _ h
    | challenge p sig => rfl

/-- Witness for claim C7: concrete verdicts settle a fresh handshake
state, and a settled state is unchanged by a later opposite verdict. -/
theorem c7_verdict_witness :
    (hsStep stubStringify stubSign "0.0.2" "0.0.100" ⟨none, []⟩ (.verdict true)).settled
      = some (.resolved (authSuccessMsg "0.0.2" "0.0.100"))
    ∧ (hsStep stubStringify stubSign "0.0.2" "0.0.100" ⟨none, []⟩ (.verdict false)).settled
      = some (.rejected (authFailErr "0.0.2" "0.0.100"))
    ∧ (hsStep stubStringify stubSign "0.0.2" "0.0.100"
        ⟨some (.resolved (authSuccessMsg "0.0.2" "0.0.100")), []⟩ (.verdict false)).settled
      = some (.resolved (authSuccessMsg "0.0.2" "0.0.100")) :=
  ⟨c7_verdict_settlement.1 stubStringify stubSign "0.0.2" "0.0.100" ⟨none, []⟩ rfl,
   c7_verdict_settlement.2.1 stubStringify stubSign "0.0.2" "0.0.100" ⟨none, []⟩ rfl,
   c7_verdict_settlement.2.2.1 stubStringify stubSign "0.0.2" "0.0.100"
     ⟨some (.resolved (authSuccessMsg "0.0.2" "0.0.100")), []⟩ (.verdict false) rfl⟩

/-- Claim C7 counterexample. A full session in which the node connects,
sends a challenge and later disconnects but never sends a verdict: the
authentication promise is still pending at the end. The handler set of
smartNodeSocket contains no timer of any kind (the event type of the
model reflects every handler the source installs), so the authentication
wait is unbounded, refuting the deadline clause of the claim. -/
theorem c7_counterexample :
    (hsRun stubStringify stubSign "0.0.2" "0.0.100" ⟨none, []⟩
      [HsEv.connectEv, HsEv.challenge "abc" [1, 2, 3], HsEv.errorsEv,
       HsEv.disconnectEv]).settled = none := by
  decide

/-- Claim C8, amended. For a recognized network with a non empty catalog
and a draw in the unit interval, the selection returns a node of that
network catalog and no other, and the draw is used uniformly: the index
equals i exactly when the draw lies in the interval from i over k to
i plus one over k, so every index owns an interval of draws of the same
length. An unrecognized network key, and likewise an empty catalog, do
not produce structured InvalidNetwork or EmptyRegistry errors: both
surface as generic TypeError rejections carrying no error kind. -/
theorem c8_selection :
    (∀ (net : String) (l : List NodeDesc) (r : ℚ),
      nodes net = some l → 0 ≤ r → r < 1 → l ≠ [] →
      ∃ nd, nd ∈ l ∧ selectNode nodes net r = .ok nd)
    ∧ (∀ (len : Nat) (r : ℚ) (i : Nat), 0 < len →
      (selIndex r len = i ↔ ((i : ℚ) / len ≤ r ∧ r < ((i : ℚ) + 1) / len)))
    ∧ (∀ (cat : String → Option (List NodeDesc)) (net : String) (r : ℚ),
      cat net = none → selectNode cat net r = .error catalogMissingErr)
    ∧ (∀ (cat : String → Option (List NodeDesc)) (net : String) (r : ℚ),
      cat net = some [] → selectNode cat net r = .error nodeUndefinedErr)
    ∧ specHasKind catalogMissingErr "InvalidNetwork" = false
    ∧ specHasKind nodeUndefinedErr "EmptyRegistry" = false := by
  refine ⟨?_, ?_, ?_, ?_, rfl, rfl⟩
  · intro net l r hcat h0 h1 hne
    have hlen : 0 < l.length := List.length_pos.mpr hne
    have hl : (0 : ℚ) < (l.length : ℚ) := by exact_mod_cast hlen
    have hub : r * (l.length : ℚ) < (l.length : ℚ) := by
      have := mul_lt_mul_of_pos_right h1 hl
      simpa using this
    have hlb : (0 : ℚ) ≤ r * (l.length : ℚ) := mul_nonneg h0 (le_of_lt hl)
    have hfl0 : 0 ≤ selIndex r l.length := by
      rw [selIndex, ratFloor_eq_floor]
      exact Int.floor_nonneg.mpr hlb
    have hflt : selIndex r l.length < (l.length : Int) := by
      rw [selIndex, ratFloor_eq_floor]
      exact Int.floor_lt.mpr (by exact_mod_cast hub)
    have hn : (selIndex r l.length).toNat < l.length := by omega
    refine ⟨l.get ⟨(selIndex r l.length).toNat, hn⟩, List.get_mem _ _ _, ?_⟩
    simp [selectNode, hcat, listGetJs, not_lt.mpr hfl0, List.getElem?_eq_getElem hn,
      List.get_eq_getElem]
  · intro len r i hlen
    have hl : (0 : ℚ) < (len : ℚ) := by exact_mod_cast hlen
    rw [selIndex, ratFloor_eq_floor, Int.floor_eq_iff, div_le_iff₀ hl, lt_div_iff₀ hl]
    push_cast
    constructor
    · rintro ⟨h1, h2⟩
      exact ⟨h1, by linarith⟩
    · rintro ⟨h1, h2⟩
      exact ⟨h1, by linarith⟩
  · intro cat net r h
    simp [selectNode, h]
  · intro cat net r h
    simp [selectNode, h, listGetJs, selIndex_zero]

/-- Witness for claim C8: the draw one half on the eight node mainnet
catalog selects some catalog node (index four, whose interval of draws
the uniformity clause exhibits), an unrecognized network produces the
generic TypeError and so does an empty catalog. -/
theorem c8_selection_witness :
    (∃ nd, nd ∈ mainnetNodes ∧ selectNode nodes "mainnet" (1 / 2) = .ok nd)
    ∧ selIndex (1 / 2) 8 = (4 : ℤ)
    ∧ selectNode nodes "devnet" (1 / 2) = .error catalogMissingErr
    ∧ selectNode (fun _ => some []) "mainnet" (1 / 2) = .error nodeUndefinedErr :=
  ⟨c8_selection.1 "mainnet" mainnetNodes (1 / 2) rfl (by norm_num) (by norm_num) (by decide),
   (c8_selection.2.1 8 (1 / 2) 4 (by norm_num)).mpr (by norm_num),
   c8_selection.2.2.1 nodes "devnet" (1 / 2) (by decide),
   c8_selection.2.2.2.1 (fun _ => some []) "mainnet" (1 / 2) rfl⟩

/-- Claim C8 counterexample. The claim requires an unrecognized network
key to fail with an InvalidNetwork error and an empty catalog to fail
with an EmptyRegistry error; the source produces, in both cases, a
generic TypeError rejection with no structured error kind at all. -/
theorem c8_counterexample :
    selectNode nodes "devnet" (1 / 2) = .error catalogMissingErr
    ∧ specHasKind catalogMissingErr "InvalidNetwork" = false
    ∧ catalogMissingErr.code = none
    ∧ selectNode (fun _ => some []) "mainnet" (1 / 2) = .error nodeUndefinedErr
    ∧ specHasKind nodeUndefinedErr "EmptyRegistry" = false
    ∧ nodeUndefinedErr.code = none := by
  refine ⟨by decide, rfl, rfl, ?_, rfl, rfl⟩
  simp [selectNode, listGetJs, selIndex_zero]

/-- Claim C9. The static catalog is partitioned into exactly the two
networks mainnet and testnet; within each network every descriptor url
is unique, while operator identifiers may repeat and do repeat in the
source catalog (the mainnet entries at positions three and four carry
the same operator). -/
theorem c9_catalog :
    (mainnetNodes.map fun n => n.url).Nodup
    ∧ (testnetNodes.map fun n => n.url).Nodup
    ∧ (mainnetNodes.map fun n => n.operator).get? 3 = some "0.0.1786344"
    ∧ (mainnetNodes.map fun n => n.operator).get? 4 = some "0.0.1786344"
    ∧ (nodes "mainnet").isSome = true
    ∧ (nodes "testnet").isSome = true
    ∧ (∀ net : String, net ≠ "mainnet" → net ≠ "testnet" → nodes net = none) := by
  refine ⟨by decide, by decide, rfl, rfl, rfl, rfl, ?_⟩
  intro net h1 h2
  simp [nodes, h1, h2]

/-- Witness for claim C9: the two network keys are present and a third
key is not in the catalog. -/
theorem c9_catalog_witness :
    nodes "devnet" = none :=
  c9_catalog.2.2.2.2.2.2 "devnet" (by decide) (by decide)

/-- Claim C10. getSocket is an idempotent lazy initializer: with a
socket already stored, any call returns that very socket and leaves the
instance unchanged, whatever path is passed; starting from no socket,
the first call creates the socket for the path given on that call and
every later call returns it with the later path argument ignored. -/
theorem c10_getSocket :
    (∀ (s : SNS) (sk : SocketObj) (p : String),
      s.socket = some sk → s.getSocket p = (sk, s))
    ∧ (∀ (s : SNS) (p1 p2 : String), s.socket = none →
      ((s.getSocket p1).2).getSocket p2 = ((s.getSocket p1).1, (s.getSocket p1).2))
    ∧ (∀ (s : SNS) (p : String), s.socket = none →
      ((s.getSocket p).1).nsUrl = wsUrl s.node.url ++ "/" ++ p
      ∧ ((s.getSocket p).2).socket = some ((s.getSocket p).1)) := by
  refine ⟨?_, ?_, ?_⟩
  · intro s sk p h
    simp [SNS.getSocket, h]
  · intro s p1 p2 h
    simp [SNS.getSocket, SNS.init, h]
  · intro s p h
    simp [SNS.getSocket, SNS.init, h]

/-- Witness for claim C10: a fresh SmartNodeSocket for the first mainnet
node; the socket created by the first call for the gateway path is
returned unchanged by a second call with a different path, and it was
created for the first path. -/
theorem c10_getSocket_witness :
    ((sns0.getSocket "gateway").2).getSocket "other"
      = ((sns0.getSocket "gateway").1, (sns0.getSocket "gateway").2)
    ∧ ((sns0.getSocket "gateway").1).nsUrl
      = wsUrl "https://mainnet-sn1.hsuite.network" ++ "/" ++ "gateway" :=
  ⟨c10_getSocket.2.1 sns0 "gateway" "other" rfl,
   (c10_getSocket.2.2 sns0 "gateway" rfl).1⟩

end DexProvider
